import Mathlib

/-!
Verification of the design-tree simplification utilities of the
Figma-Context-MCP repository (`src/utils/common.ts`).

JavaScript numbers are modelled as exact rationals (ℚ); `Math.round`
becomes `jsRound`, the 32-bit `<<` operator becomes `jsShl` (two's
complement wrap), `Number.prototype.toString(16)` becomes `jsToString16`,
`String.prototype.slice(1)` becomes `jsSlice1`, and `toUpperCase`
becomes `jsToUpper`.  Optional parameters with a JavaScript default are
modelled as `Option` arguments read with `Option.getD`.
-/

/-- JavaScript `Math.round`: round half toward positive infinity. -/
def jsRound (q : ℚ) : ℤ := Int.floor (q + 1/2)

/-- Interpret an integer as a 32-bit two's-complement value
(JavaScript `ToInt32`). -/
def toInt32 (n : ℤ) : ℤ := (n + 2 ^ 31) % 2 ^ 32 - 2 ^ 31

/-- JavaScript `a << k` for a literal shift count `k`: both operands pass
through `ToInt32` and the result is truncated back to 32 bits. -/
def jsShl (a : ℤ) (k : ℕ) : ℤ := toInt32 (toInt32 a * 2 ^ (k % 32))

/-- Lower-case hexadecimal digit characters, as produced by JavaScript
`Number.prototype.toString(16)`. -/
def hexDigitChar (n : ℕ) : Char := "0123456789abcdef".data.getD n '0'

/-- Upper-case hexadecimal digit characters. -/
def hexUpperDigit (n : ℕ) : Char := "0123456789ABCDEF".data.getD n '0'

/-- Little-endian hexadecimal digit list of a natural number, with
explicit fuel so that the kernel can evaluate it structurally. -/
def natToHexRevAux : ℕ → ℕ → List Char
  | 0, _ => []
  | fuel + 1, n =>
    if n = 0 then [] else hexDigitChar (n % 16) :: natToHexRevAux fuel (n / 16)

/-- Little-endian hexadecimal digit list of a natural number
(empty for 0). -/
def natToHexRev (n : ℕ) : List Char := natToHexRevAux n n

/-- Base-16 rendering of a natural number, most significant digit
first. -/
def natHexStr (n : ℕ) : String :=
  if n = 0 then "0" else String.mk (natToHexRev n).reverse

/-- JavaScript `n.toString(16)` for an integral number `n`. -/
def jsToString16 (n : ℤ) : String :=
  if n < 0 then "-" ++ natHexStr n.natAbs else natHexStr n.toNat

/-- JavaScript `s.slice(1)`. -/
def jsSlice1 (s : String) : String := String.mk (s.data.drop 1)

/-- JavaScript `s.toUpperCase()` (ASCII). -/
def jsToUpper (s : String) : String := String.mk (s.data.map Char.toUpper)

/-- Digits of the fractional part of a nonnegative rational, with fuel;
empty once the remainder is zero. -/
def fracDigitsAux (fuel : ℕ) (q : ℚ) : String :=
  if h : fuel = 0 then ""
  else if q = 0 then ""
  else
    let d := Int.floor (q * 10)
    toString d ++ fracDigitsAux (fuel - 1) (q * 10 - d)
termination_by fuel
decreasing_by exact Nat.sub_one_lt h

/-- Decimal rendering of a nonnegative rational (JavaScript template
interpolation of a nonnegative number with a terminating decimal
expansion). -/
def jsNumToStringNN (q : ℚ) : String :=
  toString (Int.floor q) ++
    (if q - Int.floor q = 0 then ""
     else "." ++ fracDigitsAux 30 (q - Int.floor q))

/-- Decimal rendering of a rational, as JavaScript string interpolation
renders a number with a terminating decimal expansion. -/
def jsNumToString (q : ℚ) : String :=
  if q < 0 then "-" ++ jsNumToStringNN (-q) else jsNumToStringNN q

/-- Figma RGBA color: channels and alpha as (exact) numbers. -/
structure RGBA where
  r : ℚ
  g : ℚ
  b : ℚ
  a : ℚ
deriving DecidableEq

/-- Result of `convertColor`: hex string plus combined opacity. -/
structure ColorValue where
  hex : String
  opacity : ℚ
deriving DecidableEq

/-- `convertColor(color, opacity = 1)` from `src/utils/common.ts`:
rounds each channel to 0–255 independently, folds the external opacity
into the alpha channel multiplicatively (two-decimal rounding), and
assembles the hex string as
`"#" + ((1 << 24) + (r << 16) + (g << 8) + b).toString(16).slice(1).toUpperCase()`. -/
def convertColor (color : RGBA) (opacity : Option ℚ) : ColorValue :=
  let op := opacity.getD 1
  let r := jsRound (color.r * 255)
  let g := jsRound (color.g * 255)
  let b := jsRound (color.b * 255)
  let a := (jsRound (op * color.a * 100) : ℚ) / 100
  let hexNum := jsShl 1 24 + jsShl r 16 + jsShl g 8 + b
  { hex := "#" ++ jsToUpper (jsSlice1 (jsToString16 hexNum)), opacity := a }

/-- `formatRGBAColor(color, opacity = 1)` from `src/utils/common.ts`:
renders `rgba(r, g, b, a)` with independently rounded channels and the
two-decimal combined alpha. -/
def formatRGBAColor (color : RGBA) (opacity : Option ℚ) : String :=
  let op := opacity.getD 1
  let r := jsRound (color.r * 255)
  let g := jsRound (color.g * 255)
  let b := jsRound (color.b * 255)
  let a := (jsRound (op * color.a * 100) : ℚ) / 100
  "rgba(" ++ toString r ++ ", " ++ toString g ++ ", " ++ toString b ++ ", "
    ++ jsNumToString a ++ ")"

/-- Evaluation helper: `Int.floor q = n` from rational bounds. -/
lemma intFloor_eq (q : ℚ) (n : ℤ) (h1 : (n : ℚ) ≤ q) (h2 : q < n + 1) :
    Int.floor q = n :=
  Int.floor_eq_iff.mpr ⟨h1, h2⟩

/-- Evaluation helper: `jsRound q = n` from rational bounds. -/
lemma jsRound_eq (q : ℚ) (n : ℤ) (h1 : (n : ℚ) ≤ q + 1/2) (h2 : q + 1/2 < n + 1) :
    jsRound q = n :=
  intFloor_eq _ _ h1 h2

lemma natToHexRevAux_zero (f : ℕ) : natToHexRevAux f 0 = [] := by
  cases f <;> simp [natToHexRevAux]

lemma natToHexRevAux_congr (f1 : ℕ) : ∀ f2 n : ℕ, n ≤ f1 → n ≤ f2 →
    natToHexRevAux f1 n = natToHexRevAux f2 n := by
  induction f1 with
  | zero =>
    intro f2 n h1 _
    have hn : n = 0 := by omega
    subst hn
    rw [natToHexRevAux_zero, natToHexRevAux_zero]
  | succ f ih =>
    intro f2 n h1 h2
    by_cases hn : n = 0
    · subst hn
      rw [natToHexRevAux_zero, natToHexRevAux_zero]
    · obtain ⟨g, rfl⟩ : ∃ g, f2 = g + 1 := ⟨f2 - 1, by omega⟩
      simp only [natToHexRevAux]
      rw [if_neg hn, if_neg hn]
      congr 1
      exact ih g (n / 16) (by omega) (by omega)

lemma natToHexRev_unfold (n : ℕ) :
    natToHexRev n = if n = 0 then [] else hexDigitChar (n % 16) :: natToHexRev (n / 16) := by
  by_cases hn : n = 0
  · subst hn
    rw [if_pos rfl]
    rfl
  · rw [if_neg hn]
    obtain ⟨f, rfl⟩ : ∃ f, n = f + 1 := ⟨n - 1, by omega⟩
    show natToHexRevAux (f + 1) (f + 1) = _
    simp only [natToHexRevAux]
    rw [if_neg hn]
    congr 1
    exact natToHexRevAux_congr f ((f + 1) / 16) ((f + 1) / 16) (by omega) (le_refl _)

lemma natToHexRev_hexVal (r g b : ℕ) (hr : r ≤ 255) (hg : g ≤ 255) (hb : b ≤ 255) :
    natToHexRev (16777216 + r * 65536 + g * 256 + b) =
      [hexDigitChar (b % 16), hexDigitChar (b / 16), hexDigitChar (g % 16),
       hexDigitChar (g / 16), hexDigitChar (r % 16), hexDigitChar (r / 16),
       hexDigitChar 1] := by
  rw [natToHexRev_unfold]
  rw [if_neg (show ¬(16777216 + r * 65536 + g * 256 + b = 0) by omega)]
  rw [show (16777216 + r * 65536 + g * 256 + b) % 16 = b % 16 by omega]
  rw [show (16777216 + r * 65536 + g * 256 + b) / 16
      = 1048576 + r * 4096 + g * 16 + b / 16 by omega]
  rw [natToHexRev_unfold]
  rw [if_neg (show ¬(1048576 + r * 4096 + g * 16 + b / 16 = 0) by omega)]
  rw [show (1048576 + r * 4096 + g * 16 + b / 16) % 16 = b / 16 by omega]
  rw [show (1048576 + r * 4096 + g * 16 + b / 16) / 16 = 65536 + r * 256 + g by omega]
  rw [natToHexRev_unfold]
  rw [if_neg (show ¬(65536 + r * 256 + g = 0) by omega)]
  rw [show (65536 + r * 256 + g) % 16 = g % 16 by omega]
  rw [show (65536 + r * 256 + g) / 16 = 4096 + r * 16 + g / 16 by omega]
  rw [natToHexRev_unfold]
  rw [if_neg (show ¬(4096 + r * 16 + g / 16 = 0) by omega)]
  rw [show (4096 + r * 16 + g / 16) % 16 = g / 16 by omega]
  rw [show (4096 + r * 16 + g / 16) / 16 = 256 + r by omega]
  rw [natToHexRev_unfold]
  rw [if_neg (show ¬(256 + r = 0) by omega)]
  rw [show (256 + r) % 16 = r % 16 by omega]
  rw [show (256 + r) / 16 = 16 + r / 16 by omega]
  rw [natToHexRev_unfold]
  rw [if_neg (show ¬(16 + r / 16 = 0) by omega)]
  rw [show (16 + r / 16) % 16 = r / 16 by omega]
  rw [show (16 + r / 16) / 16 = 1 by omega]
  rw [show natToHexRev 1 = [hexDigitChar 1] from rfl]

lemma toUpper_hexDigitChar : ∀ d : ℕ, d < 16 → (hexDigitChar d).toUpper = hexUpperDigit d := by
  decide

lemma hexUpperDigit_mem : ∀ d : ℕ, d < 16 → hexUpperDigit d ∈ "0123456789ABCDEF".data := by
  decide

lemma toInt32_of_small (n : ℤ) (h1 : 0 ≤ n) (h2 : n < 2 ^ 31) : toInt32 n = n := by
  unfold toInt32
  omega

lemma jsShl_small (a : ℤ) (k : ℕ) (h1 : 0 ≤ a) (h2 : a * 2 ^ (k % 32) < 2 ^ 31) :
    jsShl a k = a * 2 ^ (k % 32) := by
  have hp : (0:ℤ) < 2 ^ (k % 32) := pow_pos (by norm_num) _
  have ha : a < 2 ^ 31 := by nlinarith
  have hm : 0 ≤ a * 2 ^ (k % 32) := mul_nonneg h1 (le_of_lt hp)
  unfold jsShl
  rw [toInt32_of_small a h1 ha, toInt32_of_small _ hm h2]

lemma jsShl_one_24 : jsShl 1 24 = 16777216 := by
  have h := jsShl_small 1 24 (by norm_num) (by norm_num)
  norm_num at h
  exact h

lemma jsShl_eq_16 (a : ℤ) (h1 : 0 ≤ a) (h2 : a ≤ 255) : jsShl a 16 = a * 65536 := by
  have h := jsShl_small a 16 h1 (by norm_num; omega)
  norm_num at h
  exact h

lemma jsShl_eq_8 (a : ℤ) (h1 : 0 ≤ a) (h2 : a ≤ 255) : jsShl a 8 = a * 256 := by
  have h := jsShl_small a 8 h1 (by norm_num; omega)
  norm_num at h
  exact h

lemma jsRound_nonneg (q : ℚ) (h : 0 ≤ q) : 0 ≤ jsRound q := by
  unfold jsRound
  exact Int.floor_nonneg.mpr (by linarith)

lemma jsRound_le (q : ℚ) (n : ℤ) (h : q + 1/2 < n + 1) : jsRound q ≤ n := by
  unfold jsRound
  have := Int.floor_lt.mpr (show q + 1/2 < ((n + 1 : ℤ) : ℚ) by push_cast; linarith)
  omega

lemma jsToString16_ofNat (n : ℕ) : jsToString16 (n : ℤ) = natHexStr n := by
  unfold jsToString16
  rw [if_neg (by omega)]
  simp

/-- The hex form the specification describes: `#` followed by the three
channels as zero-padded two-digit upper-case hexadecimal numbers. -/
def specHex (r g b : ℕ) : String :=
  String.mk ['#', hexUpperDigit (r / 16), hexUpperDigit (r % 16),
             hexUpperDigit (g / 16), hexUpperDigit (g % 16),
             hexUpperDigit (b / 16), hexUpperDigit (b % 16)]

/-- C5: for every color with channels in [0,1] and every external
opacity (default 1), `convertColor` returns {hex, opacity} where each
channel is `round(channel * 255)` independently, the opacity equals
`round(opacity * alpha * 100) / 100`, and hex is a `#`-prefixed 6-digit
zero-padded upper-case hexadecimal string of the three rounded
channels. -/
theorem convertColor_spec (c : RGBA) (o : Option ℚ)
    (hr0 : 0 ≤ c.r) (hr1 : c.r ≤ 1) (hg0 : 0 ≤ c.g) (hg1 : c.g ≤ 1)
    (hb0 : 0 ≤ c.b) (hb1 : c.b ≤ 1) :
    convertColor c o =
      { hex := specHex (jsRound (c.r * 255)).toNat (jsRound (c.g * 255)).toNat
          (jsRound (c.b * 255)).toNat,
        opacity := (jsRound (o.getD 1 * c.a * 100) : ℚ) / 100 } ∧
    (convertColor c o).hex.length = 7 ∧
    (convertColor c o).hex.data.head? = some '#' ∧
    ∀ ch ∈ (convertColor c o).hex.data.tail, ch ∈ "0123456789ABCDEF".data := by
  have hr : 0 ≤ jsRound (c.r * 255) ∧ jsRound (c.r * 255) ≤ 255 :=
    ⟨jsRound_nonneg _ (mul_nonneg hr0 (by norm_num)),
     jsRound_le _ 255 (by push_cast; linarith)⟩
  have hg : 0 ≤ jsRound (c.g * 255) ∧ jsRound (c.g * 255) ≤ 255 :=
    ⟨jsRound_nonneg _ (mul_nonneg hg0 (by norm_num)),
     jsRound_le _ 255 (by push_cast; linarith)⟩
  have hb : 0 ≤ jsRound (c.b * 255) ∧ jsRound (c.b * 255) ≤ 255 :=
    ⟨jsRound_nonneg _ (mul_nonneg hb0 (by norm_num)),
     jsRound_le _ 255 (by push_cast; linarith)⟩
  have key : convertColor c o =
      { hex := specHex (jsRound (c.r * 255)).toNat (jsRound (c.g * 255)).toNat
          (jsRound (c.b * 255)).toNat,
        opacity := (jsRound (o.getD 1 * c.a * 100) : ℚ) / 100 } := by
    simp only [convertColor]
    rw [jsShl_one_24, jsShl_eq_16 _ hr.1 hr.2, jsShl_eq_8 _ hg.1 hg.2]
    rw [show (16777216 : ℤ) + jsRound (c.r * 255) * 65536 + jsRound (c.g * 255) * 256
          + jsRound (c.b * 255)
        = ((16777216 + (jsRound (c.r * 255)).toNat * 65536
            + (jsRound (c.g * 255)).toNat * 256 + (jsRound (c.b * 255)).toNat : ℕ) : ℤ)
       by omega]
    rw [jsToString16_ofNat]
    rw [natHexStr, if_neg (by omega)]
    rw [natToHexRev_hexVal _ _ _ (by omega) (by omega) (by omega)]
    rw [show ([hexDigitChar ((jsRound (c.b * 255)).toNat % 16),
       hexDigitChar ((jsRound (c.b * 255)).toNat / 16),
       hexDigitChar ((jsRound (c.g * 255)).toNat % 16),
       hexDigitChar ((jsRound (c.g * 255)).toNat / 16),
       hexDigitChar ((jsRound (c.r * 255)).toNat % 16),
       hexDigitChar ((jsRound (c.r * 255)).toNat / 16),
       hexDigitChar 1]).reverse
      = [hexDigitChar 1,
         hexDigitChar ((jsRound (c.r * 255)).toNat / 16),
         hexDigitChar ((jsRound (c.r * 255)).toNat % 16),
         hexDigitChar ((jsRound (c.g * 255)).toNat / 16),
         hexDigitChar ((jsRound (c.g * 255)).toNat % 16),
         hexDigitChar ((jsRound (c.b * 255)).toNat / 16),
         hexDigitChar ((jsRound (c.b * 255)).toNat % 16)] from rfl]
    show ColorValue.mk ("#" ++ jsToUpper (String.mk
      [hexDigitChar ((jsRound (c.r * 255)).toNat / 16),
       hexDigitChar ((jsRound (c.r * 255)).toNat % 16),
       hexDigitChar ((jsRound (c.g * 255)).toNat / 16),
       hexDigitChar ((jsRound (c.g * 255)).toNat % 16),
       hexDigitChar ((jsRound (c.b * 255)).toNat / 16),
       hexDigitChar ((jsRound (c.b * 255)).toNat % 16)])) _ = _
    unfold jsToUpper
    simp only [List.map_cons, List.map_nil]
    rw [toUpper_hexDigitChar _ (by omega), toUpper_hexDigitChar _ (by omega),
        toUpper_hexDigitChar _ (by omega), toUpper_hexDigitChar _ (by omega),
        toUpper_hexDigitChar _ (by omega), toUpper_hexDigitChar _ (by omega)]
    rfl
  refine ⟨key, ?_, ?_, ?_⟩
  · rw [key]
    rfl
  · rw [key]
    rfl
  · rw [key]
    intro ch hch
    simp only [specHex, List.tail_cons, List.mem_cons, List.not_mem_nil, or_false] at hch
    rcases hch with h | h | h | h | h | h <;> subst h <;>
      exact hexUpperDigit_mem _ (by omega)

/-- 2-D vector (gradient handle position). -/
structure Vec2 where
  x : ℚ
  y : ℚ
deriving DecidableEq

/-- A gradient stop of the raw paint: offset plus color. -/
structure GradientStop where
  position : ℚ
  color : RGBA
deriving DecidableEq

/-- A raw Figma paint as `parsePaint` receives it: a string discriminant
plus the fields the six supported variants carry.  `color` is `Option`
because only solid paints carry it (the source reads it with a `!`
assertion). -/
structure Paint where
  type : String
  color : Option RGBA := none
  opacity : Option ℚ := none
  imageRef : Option String := none
  scaleMode : Option String := none
  gradientHandlePositions : List Vec2 := []
  gradientStops : List GradientStop := []
deriving DecidableEq

/-- An output gradient stop: offset plus converted color. -/
structure GradientStopOut where
  position : ℚ
  color : ColorValue
deriving DecidableEq

/-- `SimplifiedFill`: bare hex string, formatted rgba string, image
reference, or gradient. -/
inductive SimplifiedFill where
  | hexColor (hex : String)
  | rgbaColor (css : String)
  | image (imageRef : Option String) (scaleMode : Option String)
  | gradient (ptype : String) (handles : List Vec2) (stops : List GradientStopOut)
deriving DecidableEq

/-- The four gradient paint type tags. -/
def gradientTypes : List String :=
  ["GRADIENT_LINEAR", "GRADIENT_RADIAL", "GRADIENT_ANGULAR", "GRADIENT_DIAMOND"]

/-- `parsePaint(raw)` from `src/utils/common.ts`: resolves the paint
variant, throwing (modelled as `Except.error`) on an unknown type tag.
The `raw.color!` non-null assertion is modelled by erroring when a solid
paint carries no color. -/
def parsePaint (raw : Paint) : Except String SimplifiedFill :=
  if raw.type = "IMAGE" then
    .ok (.image raw.imageRef raw.scaleMode)
  else if raw.type = "SOLID" then
    match raw.color with
    | some c =>
      let cv := convertColor c raw.opacity
      if cv.opacity = 1 then .ok (.hexColor cv.hex)
      else .ok (.rgbaColor (formatRGBAColor c (some cv.opacity)))
    | none => .error "TypeError: raw.color is undefined"
  else if raw.type ∈ gradientTypes then
    .ok (.gradient raw.type raw.gradientHandlePositions
      (raw.gradientStops.map fun s => ⟨s.position, convertColor s.color none⟩))
  else
    .error ("Unknown paint type: " ++ raw.type)

lemma fracDigitsAux_step (f : ℕ) (q : ℚ) (hf : f ≠ 0) (hq : q ≠ 0) :
    fracDigitsAux f q =
      toString (Int.floor (q * 10)) ++ fracDigitsAux (f - 1) (q * 10 - Int.floor (q * 10)) := by
  rw [fracDigitsAux]
  rw [dif_neg hf, if_neg hq]

lemma fracDigitsAux_zero_q (f : ℕ) : fracDigitsAux f 0 = "" := by
  rw [fracDigitsAux]
  split
  · rfl
  · rw [if_pos rfl]

lemma jsNumToString_quarter : jsNumToString (1/4 : ℚ) = "0.25" := by
  rw [jsNumToString, if_neg (by norm_num)]
  rw [jsNumToStringNN]
  rw [intFloor_eq (1/4 : ℚ) 0 (by norm_num) (by norm_num)]
  rw [show (1/4 : ℚ) - ((0 : ℤ) : ℚ) = 1/4 by norm_num]
  rw [if_neg (by norm_num)]
  rw [fracDigitsAux_step 30 (1/4) (by norm_num) (by norm_num)]
  rw [intFloor_eq ((1/4 : ℚ) * 10) 2 (by norm_num) (by norm_num)]
  rw [show (1/4 : ℚ) * 10 - ((2 : ℤ) : ℚ) = 1/2 by norm_num]
  rw [show (30 : ℕ) - 1 = 29 from rfl]
  rw [fracDigitsAux_step 29 (1/2) (by norm_num) (by norm_num)]
  rw [intFloor_eq ((1/2 : ℚ) * 10) 5 (by norm_num) (by norm_num)]
  rw [show (1/2 : ℚ) * 10 - ((5 : ℤ) : ℚ) = 0 by norm_num]
  rw [fracDigitsAux_zero_q]
  rfl

lemma jsNumToString_half : jsNumToString (1/2 : ℚ) = "0.5" := by
  rw [jsNumToString, if_neg (by norm_num)]
  rw [jsNumToStringNN]
  rw [intFloor_eq (1/2 : ℚ) 0 (by norm_num) (by norm_num)]
  rw [show (1/2 : ℚ) - ((0 : ℤ) : ℚ) = 1/2 by norm_num]
  rw [if_neg (by norm_num)]
  rw [fracDigitsAux_step 30 (1/2) (by norm_num) (by norm_num)]
  rw [intFloor_eq ((1/2 : ℚ) * 10) 5 (by norm_num) (by norm_num)]
  rw [show (1/2 : ℚ) * 10 - ((5 : ℤ) : ℚ) = 0 by norm_num]
  rw [fracDigitsAux_zero_q]
  rfl

lemma jsNumToString_int (q : ℚ) (n : ℤ) (h0 : 0 ≤ n) (hq : q = n) :
    jsNumToString q = toString n := by
  subst hq
  rw [jsNumToString, if_neg (not_lt.mpr (by exact_mod_cast h0))]
  rw [jsNumToStringNN]
  rw [Int.floor_intCast]
  rw [show ((n : ℚ) - (n : ℚ)) = 0 by ring]
  rw [if_pos rfl]
  exact String.append_empty _

/-- C5 witness: the claim instantiated at
`convertColor({r:1,g:0,b:0,a:1}, 1) = {hex: "#FF0000", opacity: 1}`. -/
theorem convertColor_spec_witness :
    ((0:ℚ) ≤ 1 ∧ (1:ℚ) ≤ 1 ∧ (0:ℚ) ≤ 0 ∧ (0:ℚ) ≤ 1) ∧
    convertColor ⟨1, 0, 0, 1⟩ (some 1) = ⟨"#FF0000", 1⟩ := by
  constructor
  · exact ⟨by norm_num, le_refl 1, le_refl 0, by norm_num⟩
  · have h := (convertColor_spec ⟨1, 0, 0, 1⟩ (some 1) (by norm_num) (by norm_num)
      (by norm_num) (by norm_num) (by norm_num) (by norm_num)).1
    rw [h]
    rw [jsRound_eq (({ r := 1, g := 0, b := 0, a := 1 } : RGBA).r * 255) 255
      (by norm_num) (by norm_num)]
    rw [jsRound_eq (({ r := 1, g := 0, b := 0, a := 1 } : RGBA).g * 255) 0
      (by norm_num) (by norm_num)]
    rw [jsRound_eq ((some (1:ℚ)).getD 1 * ({ r := 1, g := 0, b := 0, a := 1 } : RGBA).a * 100)
      100 (by norm_num) (by norm_num)]
    rw [show ((100 : ℤ) : ℚ) / 100 = 1 by norm_num]
    decide

/-- C1 (amended): on a SOLID paint the combined opacity is computed
once by `convertColor`; when it is 1 the bare hex is returned, but in
the rgba branch `formatRGBAColor` multiplies the color's alpha in a
second time, so the emitted alpha is
`round((round(opacity * a * 100) / 100) * a * 100) / 100`, not the
combined opacity itself. -/
theorem parsePaint_solid_claim (c : RGBA) (o : Option ℚ) :
    parsePaint { type := "SOLID", color := some c, opacity := o } =
      (if (jsRound (o.getD 1 * c.a * 100) : ℚ) / 100 = 1 then
        Except.ok (.hexColor (convertColor c o).hex)
      else
        Except.ok (.rgbaColor
          ("rgba(" ++ toString (jsRound (c.r * 255)) ++ ", "
            ++ toString (jsRound (c.g * 255)) ++ ", "
            ++ toString (jsRound (c.b * 255)) ++ ", "
            ++ jsNumToString
                ((jsRound ((jsRound (o.getD 1 * c.a * 100) : ℚ) / 100 * c.a * 100) : ℚ) / 100)
            ++ ")"))) := by
  simp [parsePaint]
  rfl

/-- A SOLID paint whose color has alpha 1/2 and whose paint opacity
is 1. -/
def halfAlphaSolid : Paint :=
  { type := "SOLID", color := some ⟨0, 0, 0, 1/2⟩, opacity := some 1 }

/-- C1 counterexample: on the half-alpha solid paint the combined
opacity computed by `convertColor` is 0.5, so the claim predicts
`rgba(0, 0, 0, 0.5)`; the code emits `rgba(0, 0, 0, 0.25)` because
`formatRGBAColor` folds the alpha channel in a second time. -/
theorem parsePaint_solid_counterexample :
    parsePaint halfAlphaSolid = .ok (.rgbaColor "rgba(0, 0, 0, 0.25)") ∧
    (jsRound (((some (1:ℚ)).getD 1) * (1/2) * 100) : ℚ) / 100 = 1/2 ∧
    jsNumToString (1/2) = "0.5" ∧
    ("rgba(0, 0, 0, 0.25)" : String) ≠ "rgba(0, 0, 0, 0.5)" := by
  refine ⟨?_, ?_, jsNumToString_half, by decide⟩
  · simp [parsePaint, halfAlphaSolid]
    have hop : (convertColor { r := 0, g := 0, b := 0, a := 2⁻¹ } (some 1)).opacity = 1/2 := by
      show ((jsRound ((some (1:ℚ)).getD 1 * (2⁻¹:ℚ) * 100) : ℚ) / 100) = 1/2
      rw [jsRound_eq ((some (1:ℚ)).getD 1 * (2⁻¹:ℚ) * 100) 50 (by norm_num) (by norm_num)]
      norm_num
    rw [hop, if_neg (show ¬((1:ℚ)/2 = 1) by norm_num)]
    have hfmt : formatRGBAColor { r := 0, g := 0, b := 0, a := 2⁻¹ } (some (1/2 : ℚ))
        = "rgba(0, 0, 0, 0.25)" := by
      show "rgba(" ++ toString (jsRound ((0:ℚ) * 255)) ++ ", " ++ toString (jsRound ((0:ℚ) * 255))
        ++ ", " ++ toString (jsRound ((0:ℚ) * 255)) ++ ", "
        ++ jsNumToString ((jsRound ((some ((1:ℚ)/2)).getD 1 * (2⁻¹:ℚ) * 100) : ℚ) / 100)
        ++ ")" = _
      rw [jsRound_eq ((0:ℚ) * 255) 0 (by norm_num) (by norm_num)]
      rw [jsRound_eq ((some ((1:ℚ)/2)).getD 1 * (2⁻¹:ℚ) * 100) 25 (by norm_num) (by norm_num)]
      rw [show ((25:ℤ) : ℚ) / 100 = 1/4 by norm_num]
      rw [jsNumToString_quarter]
      rfl
    rw [hfmt]
  · rw [jsRound_eq (((some (1:ℚ)).getD 1) * (1/2) * 100) 50 (by norm_num) (by norm_num)]
    norm_num

/-- C2: on any of the four gradient paint types, `parsePaint` returns
the type tag, the handle positions, and the stops with each stop color
converted by `convertColor` with the default external opacity 1, so a
stop's resulting opacity is `round(alpha * 100) / 100`, independent of
the paint's own opacity. -/
theorem parsePaint_gradient_claim (t : String) (ht : t ∈ gradientTypes) (co : Option RGBA)
    (o : Option ℚ) (ir sm : Option String) (hs : List Vec2) (stops : List GradientStop) :
    parsePaint
      { type := t, color := co, opacity := o, imageRef := ir,
        scaleMode := sm, gradientHandlePositions := hs, gradientStops := stops } =
      .ok (.gradient t hs (stops.map fun s => ⟨s.position, convertColor s.color none⟩)) ∧
    ∀ s : GradientStop, (convertColor s.color none).opacity
      = (jsRound (s.color.a * 100) : ℚ) / 100 := by
  constructor
  · have h1 : t ≠ "IMAGE" := by rintro rfl; simp [gradientTypes] at ht
    have h2 : t ≠ "SOLID" := by rintro rfl; simp [gradientTypes] at ht
    simp [parsePaint, h1, h2, ht]
  · intro s
    show ((jsRound ((none : Option ℚ).getD 1 * s.color.a * 100) : ℚ) / 100) = _
    norm_num

/-- C2 witness: a linear gradient with one stop; the paint opacity 1/2
plays no role in the output. -/
theorem parsePaint_gradient_claim_witness :
    ("GRADIENT_LINEAR" ∈ gradientTypes) ∧
    parsePaint
      { type := "GRADIENT_LINEAR", color := none, opacity := some (1/2), imageRef := none,
        scaleMode := none, gradientHandlePositions := [⟨0, 0⟩],
        gradientStops := [⟨0, ⟨1, 1, 1, 1/2⟩⟩] } =
      .ok (.gradient "GRADIENT_LINEAR" [⟨0, 0⟩] [⟨0, convertColor ⟨1, 1, 1, 1/2⟩ none⟩]) := by
  refine ⟨by simp [gradientTypes], ?_⟩
  have h := (parsePaint_gradient_claim "GRADIENT_LINEAR" (by simp [gradientTypes]) none
    (some (1/2)) none none [⟨0, 0⟩] [⟨0, ⟨1, 1, 1, 1/2⟩⟩]).1
  simpa using h

/-- The six paint type tags `parsePaint` accepts. -/
def supportedPaintTypes : List String := "IMAGE" :: "SOLID" :: gradientTypes

/-- C7: `parsePaint` fails exactly on paints whose type tag is not one
of the six supported tags (for a well-formed paint, i.e. a solid paint
carries a color). -/
theorem parsePaint_error_iff (p : Paint) (hwf : p.type = "SOLID" → p.color.isSome) :
    (∃ e, parsePaint p = .error e) ↔ p.type ∉ supportedPaintTypes := by
  by_cases h1 : p.type = "IMAGE"
  · simp [parsePaint, h1, supportedPaintTypes]
  · by_cases h2 : p.type = "SOLID"
    · obtain ⟨c, hc⟩ := Option.isSome_iff_exists.mp (hwf h2)
      constructor
      · rintro ⟨e, he⟩
        rw [parsePaint] at he
        rw [if_neg h1, if_pos h2, hc] at he
        dsimp only at he
        split at he <;> simp at he
      · intro hmem
        exact absurd (by simp [supportedPaintTypes, h2]) hmem
    · by_cases h3 : p.type ∈ gradientTypes
      · constructor
        · rintro ⟨e, he⟩
          rw [parsePaint, if_neg h1, if_neg h2, if_pos h3] at he
          simp at he
        · intro hmem
          exact absurd (List.mem_cons_of_mem _ (List.mem_cons_of_mem _ h3)) hmem
      · simp [parsePaint, h1, h2, h3, supportedPaintTypes]

/-- C7 witness: an unsupported tag errors; the tag is outside the six. -/
theorem parsePaint_error_iff_witness :
    (("VIDEO" : String) ∉ supportedPaintTypes) ∧
    (∃ e, parsePaint { type := "VIDEO" } = .error e) := by
  constructor
  · simp [supportedPaintTypes, gradientTypes]
  · exact (parsePaint_error_iff { type := "VIDEO" } (by intro h; simp at h)).mpr
      (by simp [supportedPaintTypes, gradientTypes])

/-- An element carrying the optional `visible` flag. -/
structure VisibleElement where
  visible : Option Bool := none
deriving DecidableEq

/-- `isVisible(element)` from `src/utils/common.ts`:
`element.visible ?? true`. -/
def isVisible (element : VisibleElement) : Bool := element.visible.getD true

/-- C8: `isVisible` returns the `visible` field when present and `true`
when it is absent. -/
theorem isVisible_claim :
    (∀ b : Bool, isVisible { visible := some b } = b) ∧
    isVisible { visible := none } = true :=
  ⟨fun _ => rfl, rfl⟩

/-- `generateCSSShorthand(values, {ignoreZero = true, suffix = "px"})`
from `src/utils/common.ts`: box-model shorthand collapsing, `none`
modelling the `undefined` result. -/
def generateCSSShorthand (top right bottom left : ℚ)
    (ignoreZero : Bool := true) (sfx : String := "px") : Option String :=
  if ignoreZero = true ∧ top = 0 ∧ right = 0 ∧ bottom = 0 ∧ left = 0 then none
  else if top = right ∧ right = bottom ∧ bottom = left then
    some (jsNumToString top ++ sfx)
  else if right = left then
    if top = bottom then
      some (jsNumToString top ++ sfx ++ " " ++ jsNumToString right ++ sfx)
    else
      some (jsNumToString top ++ sfx ++ " " ++ jsNumToString right ++ sfx ++ " "
        ++ jsNumToString bottom ++ sfx)
  else
    some (jsNumToString top ++ sfx ++ " " ++ jsNumToString right ++ sfx ++ " "
      ++ jsNumToString bottom ++ sfx ++ " " ++ jsNumToString left ++ sfx)

/-- C4: the shorthand generator's exact case priority: all-zero with
`ignoreZero` gives no value; all-equal gives one value; otherwise
`right = left` with `top = bottom` gives two, `right = left` alone gives
three, and `right ≠ left` always gives four values (even when
`top = bottom`), each value suffixed and space-separated. -/
theorem generateCSSShorthand_claim (top right bottom left : ℚ) (iz : Bool) (sfx : String) :
    ((iz = true ∧ top = 0 ∧ right = 0 ∧ bottom = 0 ∧ left = 0) →
      generateCSSShorthand top right bottom left iz sfx = none) ∧
    (¬(iz = true ∧ top = 0 ∧ right = 0 ∧ bottom = 0 ∧ left = 0) →
      (top = right ∧ right = bottom ∧ bottom = left) →
      generateCSSShorthand top right bottom left iz sfx = some (jsNumToString top ++ sfx)) ∧
    (¬(iz = true ∧ top = 0 ∧ right = 0 ∧ bottom = 0 ∧ left = 0) →
      ¬(top = right ∧ right = bottom ∧ bottom = left) → right = left → top = bottom →
      generateCSSShorthand top right bottom left iz sfx =
        some (jsNumToString top ++ sfx ++ " " ++ jsNumToString right ++ sfx)) ∧
    (¬(iz = true ∧ top = 0 ∧ right = 0 ∧ bottom = 0 ∧ left = 0) →
      ¬(top = right ∧ right = bottom ∧ bottom = left) → right = left → top ≠ bottom →
      generateCSSShorthand top right bottom left iz sfx =
        some (jsNumToString top ++ sfx ++ " " ++ jsNumToString right ++ sfx ++ " "
          ++ jsNumToString bottom ++ sfx)) ∧
    (¬(iz = true ∧ top = 0 ∧ right = 0 ∧ bottom = 0 ∧ left = 0) →
      ¬(top = right ∧ right = bottom ∧ bottom = left) → right ≠ left →
      generateCSSShorthand top right bottom left iz sfx =
        some (jsNumToString top ++ sfx ++ " " ++ jsNumToString right ++ sfx ++ " "
          ++ jsNumToString bottom ++ sfx ++ " " ++ jsNumToString left ++ sfx)) := by
  refine ⟨?_, ?_, ?_, ?_, ?_⟩
  · intro hz
    rw [generateCSSShorthand, if_pos hz]
  · intro hz he
    rw [generateCSSShorthand, if_neg hz, if_pos he]
  · intro hz he hrl htb
    rw [generateCSSShorthand, if_neg hz, if_neg he, if_pos hrl, if_pos htb]
  · intro hz he hrl htb
    rw [generateCSSShorthand, if_neg hz, if_neg he, if_pos hrl, if_neg htb]
  · intro hz he hrl
    rw [generateCSSShorthand, if_neg hz, if_neg he, if_neg hrl]

/-- C4 witness: the four-value case at (10, 20, 30, 40), with the
hypotheses of the applied case discharged there. -/
theorem generateCSSShorthand_claim_witness :
    (¬((true : Bool) = true ∧ (10:ℚ) = 0 ∧ (20:ℚ) = 0 ∧ (30:ℚ) = 0 ∧ (40:ℚ) = 0) ∧
     ¬((10:ℚ) = 20 ∧ (20:ℚ) = 30 ∧ (30:ℚ) = 40) ∧ (20:ℚ) ≠ 40) ∧
    generateCSSShorthand 10 20 30 40 true "px" = some "10px 20px 30px 40px" := by
  refine ⟨⟨by norm_num, by norm_num, by norm_num⟩, ?_⟩
  have h := (generateCSSShorthand_claim 10 20 30 40 true "px").2.2.2.2
    (by norm_num) (by norm_num) (by norm_num)
  rw [h]
  rw [jsNumToString_int 10 10 (by norm_num) (by norm_num)]
  rw [jsNumToString_int 20 20 (by norm_num) (by norm_num)]
  rw [jsNumToString_int 30 30 (by norm_num) (by norm_num)]
  rw [jsNumToString_int 40 40 (by norm_num) (by norm_num)]
  rfl

/-- The 36-character alphabet `generateVarId` draws from. -/
def varIdChars : String := "ABCDEFGHIJKLMNOPQRSTUVWXYZ0123456789"

/-- `generateVarId(prefix = "var")` from `src/utils/common.ts`: builds
`prefix + "_" + result` where `result` is six characters picked as
`chars[Math.floor(Math.random() * chars.length)]`.  The six
`Math.random()` outputs (each in `[0, 1)`) are made an explicit
argument `draws`. -/
def generateVarId (pref : String) (draws : Fin 6 → ℚ) : String :=
  pref ++ "_" ++
    String.mk (List.ofFn fun i => varIdChars.data.getD (Int.floor (draws i * 36)).toNat 'A')

/-- C3 counterexample: two calls in the same run whose random draws
differ (all-zero versus all-1/100) return the same identifier
`fill_AAAAAA`, so distinct calls are not collision-free. -/
theorem generateVarId_counterexample :
    (fun _ : Fin 6 => (0:ℚ)) ≠ (fun _ : Fin 6 => (1/100 : ℚ)) ∧
    (∀ i : Fin 6, 0 ≤ ((fun _ : Fin 6 => (0:ℚ)) i) ∧ ((fun _ : Fin 6 => (0:ℚ)) i) < 1) ∧
    (∀ i : Fin 6, 0 ≤ ((fun _ : Fin 6 => (1/100:ℚ)) i) ∧ ((fun _ : Fin 6 => (1/100:ℚ)) i) < 1) ∧
    generateVarId "fill" (fun _ => 0) = generateVarId "fill" (fun _ => 1/100) := by
  refine ⟨?_, fun i => ⟨le_refl 0, by norm_num⟩, fun i => ⟨by norm_num, by norm_num⟩, ?_⟩
  · intro hcontra
    have h := congrFun hcontra ⟨0, by norm_num⟩
    norm_num at h
  · have h1 : Int.floor ((0:ℚ) * 36) = 0 := intFloor_eq _ _ (by norm_num) (by norm_num)
    have h2 : Int.floor (((100:ℚ))⁻¹ * 36) = 0 := intFloor_eq _ _ (by norm_num) (by norm_num)
    simp [generateVarId, h1, h2]

/-- C3 (amended): every generated identifier has the shape
`prefix ++ "_" ++ token` with a six-character token over the 36-letter
alphabet; nothing prevents two distinct calls from producing the same
token, so intra-run uniqueness is not guaranteed. -/
theorem generateVarId_amended (pref : String) (draws : Fin 6 → ℚ)
    (h : ∀ i, 0 ≤ draws i ∧ draws i < 1) :
    ∃ token : String, generateVarId pref draws = pref ++ "_" ++ token ∧
      token.length = 6 ∧ ∀ ch ∈ token.data, ch ∈ varIdChars.data := by
  refine ⟨String.mk (List.ofFn fun i => varIdChars.data.getD (Int.floor (draws i * 36)).toNat 'A'),
    rfl, rfl, ?_⟩
  intro ch hch
  have hmem : ch ∈ List.ofFn fun i : Fin 6 =>
      varIdChars.data.getD (Int.floor (draws i * 36)).toNat 'A' := hch
  rw [List.mem_ofFn] at hmem
  obtain ⟨i, rfl⟩ := hmem
  dsimp only
  have h0 := (h i).1
  have h1 := (h i).2
  have hf0 : 0 ≤ Int.floor (draws i * 36) :=
    Int.floor_nonneg.mpr (mul_nonneg h0 (by norm_num))
  have hf1 : Int.floor (draws i * 36) < 36 := by
    apply Int.floor_lt.mpr
    push_cast
    linarith
  have hlen : varIdChars.data.length = 36 := rfl
  have hidx : (Int.floor (draws i * 36)).toNat < varIdChars.data.length := by omega
  rw [List.getD_eq_getElem varIdChars.data 'A' hidx]
  exact List.getElem_mem hidx

/-- C3 amended witness: the all-zero draw stream is valid and yields
`var_AAAAAA`-shaped output. -/
theorem generateVarId_amended_witness :
    (∀ i : Fin 6, 0 ≤ ((fun _ : Fin 6 => (0:ℚ)) i) ∧ ((fun _ : Fin 6 => (0:ℚ)) i) < 1) ∧
    ∃ token : String, generateVarId "var" (fun _ => 0) = "var" ++ "_" ++ token ∧
      token.length = 6 ∧ ∀ ch ∈ token.data, ch ∈ varIdChars.data :=
  ⟨fun _ => ⟨le_refl 0, by norm_num⟩,
   generateVarId_amended "var" (fun _ => 0) (fun _ => ⟨le_refl 0, by norm_num⟩)⟩

/-- A JSON-like JavaScript value as the Compactor sees it: `undefined`,
`null`, booleans, numbers, strings, arrays and objects (ordered
key/value lists). -/
inductive JValue where
  | undef : JValue
  | null : JValue
  | bool (b : Bool) : JValue
  | num (q : ℚ) : JValue
  | str (s : String) : JValue
  | arr (elems : List JValue) : JValue
  | obj (fields : List (String × JValue)) : JValue

/-- `value === undefined`. -/
def isUndefined : JValue → Bool
  | .undef => true
  | _ => false

/-- JavaScript `typeof value === "object"` (true for `null`, arrays and
objects). -/
def jsTypeofObject : JValue → Bool
  | .null => true
  | .arr _ => true
  | .obj _ => true
  | _ => false

/-- `value === null`. -/
def isJsNull : JValue → Bool
  | .null => true
  | _ => false

/-- `Array.isArray(value)`. -/
def isJsArray : JValue → Bool
  | .arr _ => true
  | _ => false

/-- `value.length` of an array (0 elsewhere; only read under an
`Array.isArray` guard). -/
def jsArrayLength : JValue → ℕ
  | .arr elems => elems.length
  | _ => 0

/-- `Object.keys(value).length` (indices for arrays, keys for
objects). -/
def jsObjectKeysLength : JValue → ℕ
  | .arr elems => elems.length
  | .obj fields => fields.length
  | _ => 0

/-- The keep condition of `removeEmptyKeys`: the cleaned value is not
`undefined`, not an empty array, and not a non-null object-typed value
with zero keys. -/
def keepValue (cleanedValue : JValue) : Bool :=
  !isUndefined cleanedValue &&
    !(isJsArray cleanedValue && jsArrayLength cleanedValue == 0) &&
    !(jsTypeofObject cleanedValue && !isJsNull cleanedValue &&
      jsObjectKeysLength cleanedValue == 0)

mutual

/-- `removeEmptyKeys(input)` from `src/utils/common.ts`: primitives and
`null` are returned unchanged, arrays are cleaned element-wise, and
objects drop the keys whose cleaned value fails `keepValue`. -/
def removeEmptyKeys : JValue → JValue
  | .arr elems => .arr (removeEmptyKeysList elems)
  | .obj fields => .obj (removeEmptyKeysObj fields)
  | v => v

/-- Element-wise cleaning of an array (`input.map(removeEmptyKeys)`). -/
def removeEmptyKeysList : List JValue → List JValue
  | [] => []
  | v :: rest => removeEmptyKeys v :: removeEmptyKeysList rest

/-- The `for key in input` loop of `removeEmptyKeys` over an object. -/
def removeEmptyKeysObj : List (String × JValue) → List (String × JValue)
  | [] => []
  | (k, v) :: rest =>
    let cleanedValue := removeEmptyKeys v
    if keepValue cleanedValue then (k, cleanedValue) :: removeEmptyKeysObj rest
    else removeEmptyKeysObj rest

end

/-- The values the specification calls structurally empty: `undefined`,
the empty array, the empty object. -/
def structEmpty : JValue → Bool
  | .undef => true
  | .arr [] => true
  | .obj [] => true
  | _ => false

lemma keepValue_eq (v : JValue) : keepValue v = !structEmpty v := by
  cases v with
  | arr elems => cases elems <;> rfl
  | obj fields => cases fields <;> rfl
  | _ => rfl

lemma removeEmptyKeysList_eq (elems : List JValue) :
    removeEmptyKeysList elems = elems.map removeEmptyKeys := by
  induction elems with
  | nil => simp [removeEmptyKeysList]
  | cons v rest ih => simp [removeEmptyKeysList, ih]

lemma removeEmptyKeysObj_eq (fields : List (String × JValue)) :
    removeEmptyKeysObj fields = fields.filterMap fun kv =>
      let cv := removeEmptyKeys kv.2
      if structEmpty cv then none else some (kv.1, cv) := by
  induction fields with
  | nil => simp [removeEmptyKeysObj]
  | cons kv rest ih =>
    obtain ⟨k, v⟩ := kv
    simp only [removeEmptyKeysObj, keepValue_eq, ih, List.filterMap_cons]
    by_cases hs : structEmpty (removeEmptyKeys v) = true
    · simp [hs]
    · simp [hs]

/-- C6: the Compactor recurses into arrays element-wise and objects
key-wise, drops exactly the keys whose cleaned value is `undefined`, an
empty array, or an object with zero remaining keys, never drops
primitives (including 0, false, and strings), and maps the
specification's example to its expected value. -/
theorem removeEmptyKeys_claim :
    (∀ elems : List JValue, removeEmptyKeys (.arr elems) = .arr (elems.map removeEmptyKeys)) ∧
    (∀ fields : List (String × JValue), removeEmptyKeys (.obj fields) =
      .obj (fields.filterMap fun kv =>
        let cv := removeEmptyKeys kv.2
        if structEmpty cv then none else some (kv.1, cv))) ∧
    (∀ v : JValue, structEmpty v = true ↔ v = .undef ∨ v = .arr [] ∨ v = .obj []) ∧
    (∀ b, removeEmptyKeys (.bool b) = .bool b) ∧
    (∀ q, removeEmptyKeys (.num q) = .num q) ∧
    (∀ s, removeEmptyKeys (.str s) = .str s) ∧
    (∀ b, structEmpty (.bool b) = false) ∧
    (∀ q, structEmpty (.num q) = false) ∧
    (∀ s, structEmpty (.str s) = false) ∧
    removeEmptyKeys (.obj [("a", .arr []), ("b", .obj []), ("c", .num 0), ("d", .bool false),
      ("e", .obj [("f", .num 1)])]) =
      .obj [("c", .num 0), ("d", .bool false), ("e", .obj [("f", .num 1)])] := by
  refine ⟨?_, ?_, ?_, fun b => by simp [removeEmptyKeys], fun q => by simp [removeEmptyKeys],
    fun s => by simp [removeEmptyKeys], fun b => rfl, fun q => rfl, fun s => rfl, ?_⟩
  · intro elems
    simp [removeEmptyKeys, removeEmptyKeysList_eq]
  · intro fields
    simp [removeEmptyKeys, removeEmptyKeysObj_eq]
  · intro v
    cases v with
    | arr elems => cases elems <;> simp [structEmpty]
    | obj fields => cases fields <;> simp [structEmpty]
    | _ => simp [structEmpty]
  · simp [removeEmptyKeys, removeEmptyKeysObj, removeEmptyKeysList, keepValue, isUndefined,
      isJsArray, isJsNull, jsTypeofObject, jsArrayLength, jsObjectKeysLength]

/-- C9: the Compactor never removes array elements: an array maps to an
array of the same length with each element cleaned in place, so
structurally empty values survive as array elements (witnessed by
`[{}, []]`, which is returned unchanged). -/
theorem removeEmptyKeys_array_claim :
    (∀ elems : List JValue,
      removeEmptyKeys (.arr elems) = .arr (elems.map removeEmptyKeys) ∧
      (elems.map removeEmptyKeys).length = elems.length) ∧
    removeEmptyKeys (.arr [.obj [], .arr []]) = .arr [.obj [], .arr []] := by
  constructor
  · intro elems
    exact ⟨by simp [removeEmptyKeys, removeEmptyKeysList_eq], by simp⟩
  · simp [removeEmptyKeys, removeEmptyKeysList, removeEmptyKeysObj]

/-- Remove the first occurrence of `#` from a character list
(JavaScript `hex.replace("#", "")`). -/
def removeFirstHash : List Char → List Char
  | [] => []
  | c :: rest => if c = '#' then rest else c :: removeFirstHash rest

/-- JavaScript `hex.replace("#", "")`: only the first occurrence is
replaced. -/
def jsReplaceHashOnce (s : String) : String := String.mk (removeFirstHash s.data)

/-- JavaScript `s.substring(a, b)` for `a ≤ b`. -/
def jsSubstring (s : String) (a b : ℕ) : String := String.mk ((s.data.drop a).take (b - a))

/-- Hexadecimal value of a character, `none` when it is not a hex
digit. -/
def hexDigitValOpt (c : Char) : Option ℕ :=
  if '0' ≤ c ∧ c ≤ '9' then some (c.toNat - '0'.toNat)
  else if 'a' ≤ c ∧ c ≤ 'f' then some (c.toNat - 'a'.toNat + 10)
  else if 'A' ≤ c ∧ c ≤ 'F' then some (c.toNat - 'A'.toNat + 10)
  else none

/-- JavaScript `parseInt(s, 16)`: parse the longest hex-digit prefix,
`none` modelling `NaN` when no digit is consumed. -/
def jsParseInt16 (s : String) : Option ℤ :=
  let digits := s.data.takeWhile fun c => (hexDigitValOpt c).isSome
  if digits.isEmpty then none
  else some (digits.foldl (fun acc c => acc * 16 + ((hexDigitValOpt c).getD 0 : ℤ)) 0)

/-- Template interpolation of a `parseInt` result (`NaN` when the parse
failed). -/
def optIntToString : Option ℤ → String
  | none => "NaN"
  | some n => toString n

/-- `hexToRgba(hex, opacity = 1)` from `src/utils/common.ts`: strips a
`#`, expands 3-digit shorthand, parses the three channel pairs, clamps
the opacity into [0, 1] and renders `rgba(r, g, b, a)`. -/
def hexToRgba (hex : String) (opacity : Option ℚ) : String :=
  let h1 := jsReplaceHashOnce hex
  let h2 := if h1.length = 3 then
      String.mk [h1.data.getD 0 ' ', h1.data.getD 0 ' ', h1.data.getD 1 ' ',
                 h1.data.getD 1 ' ', h1.data.getD 2 ' ', h1.data.getD 2 ' ']
    else h1
  let r := jsParseInt16 (jsSubstring h2 0 2)
  let g := jsParseInt16 (jsSubstring h2 2 4)
  let b := jsParseInt16 (jsSubstring h2 4 6)
  let validOpacity := min (max (opacity.getD 1) 0) 1
  "rgba(" ++ optIntToString r ++ ", " ++ optIntToString g ++ ", " ++ optIntToString b ++ ", "
    ++ jsNumToString validOpacity ++ ")"

lemma rgba_shape (r g b a : String) :
    "rgba(" ++ r ++ ", " ++ g ++ ", " ++ b ++ ", " ++ a ++ ")"
      = "rgba(" ++ (r ++ ", " ++ g ++ ", " ++ b) ++ ", " ++ a ++ ")" := by
  simp [String.append_assoc]

/-- C10: the alpha slot of the string `hexToRgba` returns is always
`min(max(opacity, 0), 1)`, which lies in [0, 1] whatever opacity the
caller passes. -/
theorem hexToRgba_claim (hex : String) (o : Option ℚ) :
    (∃ rgbPart : String, hexToRgba hex o =
      "rgba(" ++ rgbPart ++ ", " ++ jsNumToString (min (max (o.getD 1) 0) 1) ++ ")") ∧
    0 ≤ min (max (o.getD 1) 0) 1 ∧ min (max (o.getD 1) 0) 1 ≤ 1 := by
  refine ⟨?_, le_min (le_max_right _ _) zero_le_one, min_le_right _ _⟩
  exact ⟨_, by simp only [hexToRgba]; exact rgba_shape _ _ _ _⟩
